import Mathlib

/-!
# Verification of the teleop relay core (go-relay)

Shallow embedding of the relay fabric: the Twist frame codec
(`twist.go`), the WebSocket data-plane fan-out (`websocket.go`), the
DataChannel message router (`MessageRouter` in the server main file),
the HTTP offer admission path (`SignalingHandler.handleOffer`) and the
keepalive constants and eviction path.

Conventions:
* Go `float64` slots are modelled by their IEEE-754 bit patterns as
  `Nat` (the codec only moves bits through `math.Float64bits` /
  `math.Float64frombits`, which round-trip every pattern, NaN payloads
  and subnormals included).
* Go `uint64` is `Nat`; reduction `% 2^64` is written where the byte
  serialisation forces it.
* Byte slices are `List Nat` whose entries are byte values.
* Wall-clock time (`time.Now().UnixMilli()`) is passed explicitly as a
  `now : Nat` parameter.
-/

namespace Relay

/-- `2^64`, the modulus of Go's `uint64`. -/
def U64MOD : Nat := 18446744073709551616

/-- `binary.LittleEndian.PutUint64`: the 8 little-endian bytes of the low
64 bits of `x`. -/
def le64 (x : Nat) : List Nat :=
  [x % 256, x / 256 % 256, x / 65536 % 256, x / 16777216 % 256,
   x / 4294967296 % 256, x / 1099511627776 % 256,
   x / 281474976710656 % 256, x / 72057594037927936 % 256]

/-- `binary.LittleEndian.Uint64`: recombine 8 little-endian bytes. -/
def fromLe64 : List Nat → Nat
  | [b0, b1, b2, b3, b4, b5, b6, b7] =>
      b0 + 256 * b1 + 65536 * b2 + 16777216 * b3 + 4294967296 * b4 +
      1099511627776 * b5 + 281474976710656 * b6 + 72057594037927936 * b7
  | _ => 0

/-- `Vector3` from `twist.go`: X, Y, Z float64 components, modelled as
bit patterns. -/
structure Vector3 where
  X : Nat
  Y : Nat
  Z : Nat
deriving DecidableEq, Repr

/-- `TwistMessage` from `twist.go`: linear and angular velocity vectors
plus a `uint64` millisecond timestamp. -/
structure TwistMessage where
  Linear : Vector3
  Angular : Vector3
  Timestamp : Nat
deriving DecidableEq, Repr

/-- `TwistMessageSize` — size of the full binary form. -/
def TwistMessageSize : Nat := 56

/-- `TwistMessageSizeLegacy` — legacy size without timestamp. -/
def TwistMessageSizeLegacy : Nat := 48

/-- `ErrInvalidMessageSize` is the only decode error in `twist.go`. -/
inductive TwistError where
  | ErrInvalidMessageSize
deriving DecidableEq, Repr

/-- `EncodeTwist` from `twist.go`: 56 little-endian bytes; the timestamp
slot holds `time.Now().UnixMilli()` (the `now` parameter) when the
caller's timestamp is zero, otherwise the caller's value. -/
def EncodeTwist (now : Nat) (twist : TwistMessage) : List Nat :=
  le64 twist.Linear.X ++ le64 twist.Linear.Y ++ le64 twist.Linear.Z ++
  le64 twist.Angular.X ++ le64 twist.Angular.Y ++ le64 twist.Angular.Z ++
  le64 (if twist.Timestamp = 0 then now else twist.Timestamp)

/-- Read the 8-byte little-endian word at offset `off` of `data`
(`binary.LittleEndian.Uint64(data[off : off+8])`). -/
def seg (data : List Nat) (off : Nat) : Nat :=
  fromLe64 ((data.drop off).take 8)

/-- `DecodeTwist` from `twist.go`: rejects lengths other than 56 or 48,
reads the six doubles, and reads the timestamp only in the 56-byte
form. -/
def DecodeTwist (data : List Nat) : Except TwistError TwistMessage :=
  if data.length ≠ TwistMessageSize ∧ data.length ≠ TwistMessageSizeLegacy then
    Except.error TwistError.ErrInvalidMessageSize
  else
    Except.ok
      { Linear := { X := seg data 0, Y := seg data 8, Z := seg data 16 }
        Angular := { X := seg data 24, Y := seg data 32, Z := seg data 40 }
        Timestamp := if TwistMessageSize ≤ data.length then seg data 48 else 0 }

theorem fromLe64_le64 (x : Nat) : fromLe64 (le64 x) = x % U64MOD := by
  simp only [le64, fromLe64, U64MOD]
  omega

theorem le64_mod (x : Nat) : le64 (x % U64MOD) = le64 x := by
  simp only [le64, U64MOD, List.cons.injEq, and_true]
  refine ⟨?_, ?_, ?_, ?_, ?_, ?_, ?_, ?_⟩ <;> omega

theorem encode_length (now : Nat) (t : TwistMessage) :
    (EncodeTwist now t).length = 56 := by
  simp [EncodeTwist, le64]

theorem decode_encode (now : Nat) (t : TwistMessage) :
    DecodeTwist (EncodeTwist now t) =
      Except.ok
        { Linear := { X := t.Linear.X % U64MOD, Y := t.Linear.Y % U64MOD,
                      Z := t.Linear.Z % U64MOD }
          Angular := { X := t.Angular.X % U64MOD, Y := t.Angular.Y % U64MOD,
                       Z := t.Angular.Z % U64MOD }
          Timestamp := (if t.Timestamp = 0 then now else t.Timestamp) % U64MOD } := by
  have h0 : DecodeTwist (EncodeTwist now t) =
      Except.ok
        { Linear := { X := fromLe64 (le64 t.Linear.X),
                      Y := fromLe64 (le64 t.Linear.Y),
                      Z := fromLe64 (le64 t.Linear.Z) }
          Angular := { X := fromLe64 (le64 t.Angular.X),
                       Y := fromLe64 (le64 t.Angular.Y),
                       Z := fromLe64 (le64 t.Angular.Z) }
          Timestamp := fromLe64 (le64 (if t.Timestamp = 0 then now else t.Timestamp)) } := rfl
  rw [h0]
  simp only [fromLe64_le64]

/-- C4: for every `TwistMessage` whose timestamp field is nonzero (a Go
`uint64`, hence `< 2^64`), encoding, decoding the resulting 56 bytes and
encoding again yields exactly the first byte string — for every bit
pattern in the six double slots, NaN payloads and subnormals included,
and for any wall-clock values `now` and `now2` at the two encodes. -/
theorem encode_decode_encode_roundtrip (now now2 : Nat) (t : TwistMessage)
    (hts : t.Timestamp ≠ 0) (hlt : t.Timestamp < U64MOD) :
    ∃ t', DecodeTwist (EncodeTwist now t) = Except.ok t' ∧
          EncodeTwist now2 t' = EncodeTwist now t := by
  refine ⟨_, decode_encode now t, ?_⟩
  have hmod : t.Timestamp % U64MOD = t.Timestamp := Nat.mod_eq_of_lt hlt
  simp only [EncodeTwist, if_neg hts, hmod, le64_mod]

/-- Witness for C4 at a concrete frame carrying a quiet-NaN bit pattern
(`0x7FF8000000000001`), a subnormal pattern (`1`) and timestamp 7. -/
theorem encode_decode_encode_roundtrip_witness :
    ∃ t', DecodeTwist (EncodeTwist 1
            { Linear := { X := 9221120237041090561, Y := 1, Z := 2 }
              Angular := { X := 3, Y := 4, Z := 5 }, Timestamp := 7 }) = Except.ok t' ∧
          EncodeTwist 2 t' = EncodeTwist 1
            { Linear := { X := 9221120237041090561, Y := 1, Z := 2 }
              Angular := { X := 3, Y := 4, Z := 5 }, Timestamp := 7 } :=
  encode_decode_encode_roundtrip 1 2 _ (by decide) (by decide)

/-- C5: `DecodeTwist` fails with the invalid-frame-size error on every
input whose length is neither 48 nor 56, and succeeds on every input of
length exactly 48 or exactly 56. -/
theorem decode_size_check (data : List Nat) :
    (data.length ≠ 48 ∧ data.length ≠ 56 →
      DecodeTwist data = Except.error TwistError.ErrInvalidMessageSize) ∧
    (data.length = 48 ∨ data.length = 56 → ∃ t, DecodeTwist data = Except.ok t) := by
  constructor
  · intro h
    simp [DecodeTwist, TwistMessageSize, TwistMessageSizeLegacy, h.1, h.2]
  · rintro (h | h) <;>
      simp [DecodeTwist, TwistMessageSize, TwistMessageSizeLegacy, h]

/-- Witness for C5: a 3-byte input is rejected and a 48-byte input is
accepted. -/
theorem decode_size_check_witness :
    DecodeTwist [0, 0, 0] = Except.error TwistError.ErrInvalidMessageSize ∧
    ∃ t, DecodeTwist (List.replicate 48 0) = Except.ok t :=
  ⟨(decode_size_check [0, 0, 0]).1 (by decide),
   (decode_size_check (List.replicate 48 0)).2 (by simp)⟩

/-- C6: bytes 48..55 of `EncodeTwist`'s output are the little-endian
encoding of the current wall-clock millisecond count exactly when the
frame's timestamp field is zero, and otherwise the caller's timestamp
bit-for-bit. -/
theorem encode_timestamp_slot (now : Nat) (t : TwistMessage) :
    ((EncodeTwist now t).drop 48).take 8 =
      le64 (if t.Timestamp = 0 then now else t.Timestamp) := rfl

/-! ## Data plane: WebSocket manager and message router

From `websocket.go`, `peer_manager.go` and the `MessageRouter` in the
server main file. Peer roles are Go strings (`"web"` / `"python"`; the
query parameter admits arbitrary strings, so the model keeps `String`).
A client's `Send` channel (`make(chan []byte, 256)`) is a bounded queue;
a channel item is an `OutMsg`. Each fan-out function additionally
returns the list of recipients of the frame, instrumenting the
successful channel/DataChannel sends so delivery claims can be stated.
-/

/-- One item on a data client's `Send` channel. -/
inductive OutMsg where
  | dataFrame (bytes : List Nat)
  | welcomeFrame (peerId peerTy : String) (ts : Nat)
  | pongFrame (peerId : String) (ts : Nat)
deriving DecidableEq, Repr

/-- `WSClient` from `websocket.go` (`Type` field spelled `PeerType` as in
the source); `Send` is the buffered outbound channel. -/
structure WSClient where
  ID : String
  PeerType : String
  Send : List OutMsg
deriving DecidableEq, Repr

/-- Capacity of the `Send` channel: `make(chan []byte, 256)` in
`HandleDataWS` / `HandleSignalingWS`. -/
def sendChanCapacity : Nat := 256

/-- `select { case client.Send <- data: ... default: drop }` — the
non-blocking enqueue: succeeds exactly when the buffer has room. -/
def trySend (c : WSClient) (m : OutMsg) : WSClient × Bool :=
  if c.Send.length < sendChanCapacity then
    ({ c with Send := c.Send ++ [m] }, true)
  else (c, false)

/-- Opposite peer type as computed in `WSManager.forwardData`:
`targetType := "python"; if senderType == "python" { targetType = "web" }`. -/
def targetTypeOf (senderType : String) : String :=
  if senderType = "python" then "web" else "python"

/-- The loop body of `WSManager.forwardData`: walk the data clients,
enqueue to every client of the opposite type other than the sender,
dropping (with a "send buffer full" log) when the buffer is full.
Returns (updated clients, `forwarded` count, recipients). -/
def forwardLoop (senderID senderType : String) (data : List Nat) :
    List WSClient → List WSClient × Nat × List WSClient
  | [] => ([], 0, [])
  | c :: rest =>
    let r := forwardLoop senderID senderType data rest
    if c.ID ≠ senderID ∧ c.PeerType = targetTypeOf senderType then
      let s := trySend c (OutMsg.dataFrame data)
      if s.2 then (s.1 :: r.1, r.2.1 + 1, c :: r.2.2)
      else (s.1 :: r.1, r.2.1, r.2.2)
    else (c :: r.1, r.2.1, r.2.2)

/-- `RouterStats`: the {received, forwarded, decode-error} counters. -/
structure RouterStats where
  MessagesReceived : Nat
  MessagesForwarded : Nat
  ParseErrors : Nat
deriving DecidableEq, Repr

/-- `WSManager.forwardData`: fan out to opposite-type data clients and
bump `MessagesForwarded` when at least one send succeeded (the
`forwarded > 0` guard of the source). -/
def forwardData (clients : List WSClient) (stats : RouterStats)
    (senderID senderType : String) (data : List Nat) :
    List WSClient × RouterStats × List WSClient :=
  let r := forwardLoop senderID senderType data clients
  let stats' :=
    if 0 < r.2.1 then
      { stats with MessagesForwarded := stats.MessagesForwarded + r.2.1 }
    else stats
  (r.1, stats', r.2.2)

/-- The loop of `WSManager.BroadcastToType`: send to every data client of
`targetType` — no sender exclusion — non-blocking per client. Returns
(updated clients, `sent` count, recipients). -/
def wsBroadcastLoop (targetType : String) (data : List Nat) :
    List WSClient → List WSClient × Nat × List WSClient
  | [] => ([], 0, [])
  | c :: rest =>
    let r := wsBroadcastLoop targetType data rest
    if c.PeerType = targetType then
      let s := trySend c (OutMsg.dataFrame data)
      if s.2 then (s.1 :: r.1, r.2.1 + 1, c :: r.2.2)
      else (s.1 :: r.1, r.2.1, r.2.2)
    else (c :: r.1, r.2.1, r.2.2)

/-- `PeerTypeWeb` from `peer_manager.go`. -/
def PeerTypeWeb : String := "web"

/-- `PeerTypePython` from `peer_manager.go`. -/
def PeerTypePython : String := "python"

/-- `Peer` from `peer_manager.go`. The Go field `Type` is spelled
`PType` (`Type` is reserved in Lean); `dataChannelOpen` abstracts
"`DataChannel != nil` and `ReadyState() == Open` and `Send` succeeds",
the exact success condition of `PeerManager.SendToPeer`. -/
structure Peer where
  ID : String
  PType : String
  dataChannelOpen : Bool
deriving DecidableEq, Repr

/-- `PeerManager.GetPeersByType`. -/
def GetPeersByType (peers : List Peer) (ty : String) : List Peer :=
  peers.filter (fun p => p.PType == ty)

/-- `PeerManager.BroadcastToType`: send to every peer of the given type,
counting successes (`SendToPeer` succeeds iff the data channel is
open). Returns (`sent` count, recipients). -/
def pmBroadcastToType (peers : List Peer) (ty : String) : Nat × List Peer :=
  let delivered := (GetPeersByType peers ty).filter (fun p => p.dataChannelOpen)
  (delivered.length, delivered)

/-- A delivery target, tagged by transport: a WebRTC peer or a
WebSocket data client. Two records on different transports are distinct
peers even if their id strings coincide. -/
inductive Target where
  | webrtc (id ty : String)
  | ws (id ty : String)
deriving DecidableEq, Repr

/-- The role (peer type string) of a delivery target. -/
def Target.role : Target → String
  | .webrtc _ ty => ty
  | .ws _ ty => ty

/-- The shared mutable state the router touches: the WebRTC peer
registry (`PeerManager.peers`), the WebSocket data-client registry
(`WSManager.dataClients`) and the routing counters. -/
structure RelayState where
  peers : List Peer
  dataClients : List WSClient
  stats : RouterStats
deriving DecidableEq, Repr

/-- `MessageRouter.HandleMessage`: bump `MessagesReceived`; on decode
failure bump `ParseErrors` and return (no fan-out); otherwise switch on
the origin peer's type and broadcast to the opposite type on both
transports, adding the send counts to `MessagesForwarded`. Unknown
origin types fall through the switch with no fan-out. -/
def HandleMessage (st : RelayState) (src : Peer) (data : List Nat) :
    RelayState × List Target :=
  let stats1 := { st.stats with MessagesReceived := st.stats.MessagesReceived + 1 }
  match DecodeTwist data with
  | Except.error _ =>
      ({ st with stats := { stats1 with ParseErrors := stats1.ParseErrors + 1 } }, [])
  | Except.ok _ =>
      if src.PType = PeerTypeWeb then
        let pm := pmBroadcastToType st.peers PeerTypePython
        let wsr := wsBroadcastLoop PeerTypePython data st.dataClients
        ({ peers := st.peers, dataClients := wsr.1,
           stats := { stats1 with
             MessagesForwarded := stats1.MessagesForwarded + pm.1 + wsr.2.1 } },
         pm.2.map (fun p => Target.webrtc p.ID p.PType) ++
           wsr.2.2.map (fun c => Target.ws c.ID c.PeerType))
      else if src.PType = PeerTypePython then
        let pm := pmBroadcastToType st.peers PeerTypeWeb
        let wsr := wsBroadcastLoop PeerTypeWeb data st.dataClients
        ({ peers := st.peers, dataClients := wsr.1,
           stats := { stats1 with
             MessagesForwarded := stats1.MessagesForwarded + pm.1 + wsr.2.1 } },
         pm.2.map (fun p => Target.webrtc p.ID p.PType) ++
           wsr.2.2.map (fun c => Target.ws c.ID c.PeerType))
      else ({ st with stats := stats1 }, [])

/-- `WSClient.handleBinaryData`: bump `MessagesReceived`; on decode
failure log and return — no `ParseErrors` bump and no fan-out;
otherwise forward to opposite-type data clients via `forwardData` and
bridge to opposite-type WebRTC peers, bumping `MessagesForwarded` for
the bridge when it delivered (the `sent > 0` guard). -/
def handleBinaryData (st : RelayState) (c : WSClient) (data : List Nat) :
    RelayState × List Target :=
  let stats1 := { st.stats with MessagesReceived := st.stats.MessagesReceived + 1 }
  match DecodeTwist data with
  | Except.error _ => ({ st with stats := stats1 }, [])
  | Except.ok _ =>
      let fd := forwardData st.dataClients stats1 c.ID c.PeerType data
      let targetType := if c.PeerType = PeerTypeWeb then PeerTypePython else PeerTypeWeb
      let pm := pmBroadcastToType st.peers targetType
      let stats2 :=
        if 0 < pm.1 then
          { fd.2.1 with MessagesForwarded := fd.2.1.MessagesForwarded + pm.1 }
        else fd.2.1
      ({ peers := st.peers, dataClients := fd.1, stats := stats2 },
       fd.2.2.map (fun x => Target.ws x.ID x.PeerType) ++
         pm.2.map (fun p => Target.webrtc p.ID p.PType))

/-- A JSON envelope on the data socket, `DataMessage` in `websocket.go`
(the Go field `Type` is spelled `MsgType`). -/
structure DataMessage where
  MsgType : String
  PeerID : String
  PeerType : String
  Data : List Nat
  Timestamp : Nat
deriving DecidableEq, Repr

/-- `WSClient.handleDataMessage`: a `"twist"` envelope forwards its
payload via `forwardData` only — no receive bump, no decode, no WebRTC
bridge; a `"ping"` enqueues a pong on the sender's own channel (a
blocking send in Go, modelled as the enqueue); unknown types are logged
and dropped. -/
def handleDataMessage (st : RelayState) (c : WSClient) (msg : DataMessage)
    (now : Nat) : RelayState × List Target :=
  if msg.MsgType = "twist" then
    let fd := forwardData st.dataClients st.stats c.ID c.PeerType msg.Data
    ({ peers := st.peers, dataClients := fd.1, stats := fd.2.1 },
     fd.2.2.map (fun x => Target.ws x.ID x.PeerType))
  else if msg.MsgType = "ping" then
    ({ st with dataClients := st.dataClients.map (fun x =>
        if x.ID = c.ID then { x with Send := x.Send ++ [OutMsg.pongFrame c.ID now] }
        else x) }, [])
  else (st, [])

/-! ### Structural characterizations of the fan-out loops -/

theorem targetTypeOf_ne (s : String) : targetTypeOf s ≠ s := by
  unfold targetTypeOf
  by_cases h : s = "python"
  · simp only [h, if_pos rfl]
    decide
  · simp only [if_neg h]
    exact fun hc => h hc.symm

theorem forwardLoop_eq (sid sty : String) (d : List Nat) (cs : List WSClient) :
    forwardLoop sid sty d cs =
      (cs.map (fun c =>
          if c.ID ≠ sid ∧ c.PeerType = targetTypeOf sty then
            (trySend c (OutMsg.dataFrame d)).1 else c),
       (cs.filter (fun c => decide ((c.ID ≠ sid ∧ c.PeerType = targetTypeOf sty) ∧
          c.Send.length < sendChanCapacity))).length,
       cs.filter (fun c => decide ((c.ID ≠ sid ∧ c.PeerType = targetTypeOf sty) ∧
          c.Send.length < sendChanCapacity))) := by
  induction cs with
  | nil => rfl
  | cons c rest ih =>
    by_cases h1 : c.ID ≠ sid ∧ c.PeerType = targetTypeOf sty
    · by_cases h2 : c.Send.length < sendChanCapacity
      · simp [forwardLoop, trySend, h1, h2, ih, List.filter_cons]
      · simp [forwardLoop, trySend, h1, h2, ih, List.filter_cons]
    · simp [forwardLoop, h1, ih, List.filter_cons]

theorem wsBroadcastLoop_eq (ty : String) (d : List Nat) (cs : List WSClient) :
    wsBroadcastLoop ty d cs =
      (cs.map (fun c =>
          if c.PeerType = ty then (trySend c (OutMsg.dataFrame d)).1 else c),
       (cs.filter (fun c => decide (c.PeerType = ty ∧
          c.Send.length < sendChanCapacity))).length,
       cs.filter (fun c => decide (c.PeerType = ty ∧
          c.Send.length < sendChanCapacity))) := by
  induction cs with
  | nil => rfl
  | cons c rest ih =>
    by_cases h1 : c.PeerType = ty
    · by_cases h2 : c.Send.length < sendChanCapacity
      · simp [wsBroadcastLoop, trySend, h1, h2, ih, List.filter_cons]
      · simp [wsBroadcastLoop, trySend, h1, h2, ih, List.filter_cons]
    · simp [wsBroadcastLoop, h1, ih, List.filter_cons]

theorem forwardLoop_delivered_mem {sid sty : String} {d : List Nat}
    {cs : List WSClient} {c : WSClient}
    (hc : c ∈ (forwardLoop sid sty d cs).2.2) :
    c.ID ≠ sid ∧ c.PeerType = targetTypeOf sty ∧
      c.Send.length < sendChanCapacity := by
  rw [forwardLoop_eq] at hc
  simp only [List.mem_filter, decide_eq_true_eq] at hc
  exact ⟨hc.2.1.1, hc.2.1.2, hc.2.2⟩

theorem wsBroadcastLoop_delivered_mem {ty : String} {d : List Nat}
    {cs : List WSClient} {c : WSClient}
    (hc : c ∈ (wsBroadcastLoop ty d cs).2.2) :
    c.PeerType = ty ∧ c.Send.length < sendChanCapacity := by
  rw [wsBroadcastLoop_eq] at hc
  simp only [List.mem_filter, decide_eq_true_eq] at hc
  exact hc.2

theorem pmBroadcastToType_delivered_mem {ps : List Peer} {ty : String} {p : Peer}
    (hp : p ∈ (pmBroadcastToType ps ty).2) :
    p.PType = ty ∧ p.dataChannelOpen = true := by
  simp only [pmBroadcastToType, GetPeersByType, List.mem_filter, beq_iff_eq] at hp
  exact ⟨hp.1.2, hp.2⟩

theorem HandleMessage_snd (st : RelayState) (src : Peer) (data : List Nat) :
    (HandleMessage st src data).2 =
      match DecodeTwist data with
      | Except.error _ => []
      | Except.ok _ =>
        if src.PType = PeerTypeWeb then
          (pmBroadcastToType st.peers PeerTypePython).2.map
              (fun p => Target.webrtc p.ID p.PType) ++
            (wsBroadcastLoop PeerTypePython data st.dataClients).2.2.map
              (fun c => Target.ws c.ID c.PeerType)
        else if src.PType = PeerTypePython then
          (pmBroadcastToType st.peers PeerTypeWeb).2.map
              (fun p => Target.webrtc p.ID p.PType) ++
            (wsBroadcastLoop PeerTypeWeb data st.dataClients).2.2.map
              (fun c => Target.ws c.ID c.PeerType)
        else [] := by
  unfold HandleMessage
  cases DecodeTwist data with
  | error e => rfl
  | ok tw =>
    have hpw : PeerTypePython ≠ PeerTypeWeb := by decide
    by_cases hw : src.PType = PeerTypeWeb <;>
      by_cases hp : src.PType = PeerTypePython <;>
        simp [hw, hp, hpw]

theorem HandleMessage_delivered_role {st : RelayState} {src : Peer}
    {data : List Nat} {t : Target} (ht : t ∈ (HandleMessage st src data).2) :
    (src.PType = PeerTypeWeb ∧ t.role = PeerTypePython) ∨
    (src.PType = PeerTypePython ∧ t.role = PeerTypeWeb) := by
  rw [HandleMessage_snd] at ht
  rcases hdec : DecodeTwist data with e | tw <;> rw [hdec] at ht
  · simp at ht
  · by_cases hw : src.PType = PeerTypeWeb
    · rw [if_pos hw] at ht
      left
      refine ⟨hw, ?_⟩
      rcases List.mem_append.1 ht with h | h
      · rcases List.mem_map.1 h with ⟨p, hp, rfl⟩
        exact (pmBroadcastToType_delivered_mem hp).1
      · rcases List.mem_map.1 h with ⟨x, hx, rfl⟩
        exact (wsBroadcastLoop_delivered_mem hx).1
    · rw [if_neg hw] at ht
      by_cases hp : src.PType = PeerTypePython
      · rw [if_pos hp] at ht
        right
        refine ⟨hp, ?_⟩
        rcases List.mem_append.1 ht with h | h
        · rcases List.mem_map.1 h with ⟨p, hmem, rfl⟩
          exact (pmBroadcastToType_delivered_mem hmem).1
        · rcases List.mem_map.1 h with ⟨x, hx, rfl⟩
          exact (wsBroadcastLoop_delivered_mem hx).1
      · rw [if_neg hp] at ht
        simp at ht

theorem pmBroadcastToType_all_ne {ps : List Peer} {ty : String}
    (h : ∀ p ∈ ps, p.PType ≠ ty) : pmBroadcastToType ps ty = (0, []) := by
  have hnil : GetPeersByType ps ty = [] := by
    refine List.filter_eq_nil_iff.2 (fun p hp => ?_)
    simp [h p hp]
  simp [pmBroadcastToType, hnil]

theorem wsBroadcastLoop_all_ne {ty : String} {d : List Nat} {cs : List WSClient}
    (h : ∀ c ∈ cs, c.PeerType ≠ ty) :
    wsBroadcastLoop ty d cs = (cs, 0, []) := by
  induction cs with
  | nil => rfl
  | cons c rest ih =>
    have hc : c.PeerType ≠ ty := h c (by simp)
    have hrest := ih (fun x hx => h x (by simp [hx]))
    simp [wsBroadcastLoop, hrest, hc]

theorem HandleMessage_same_role_isolated (st : RelayState) (src : Peer)
    (data : List Nat)
    (hpm : ∀ p ∈ st.peers, p.PType = src.PType)
    (hws : ∀ x ∈ st.dataClients, x.PeerType = src.PType) :
    (HandleMessage st src data).2 = [] ∧
    (HandleMessage st src data).1.stats.MessagesForwarded =
      st.stats.MessagesForwarded := by
  have hpw : PeerTypePython ≠ PeerTypeWeb := by decide
  unfold HandleMessage
  rcases hdec : DecodeTwist data with e | tw <;> simp only [hdec]
  · simp
  · by_cases hw : src.PType = PeerTypeWeb
    · have h1 : pmBroadcastToType st.peers PeerTypePython = (0, []) :=
        pmBroadcastToType_all_ne (fun p hp => by
          rw [hpm p hp, hw]; decide)
      have h2 : wsBroadcastLoop PeerTypePython data st.dataClients =
          (st.dataClients, 0, []) :=
        wsBroadcastLoop_all_ne (fun c hc => by
          rw [hws c hc, hw]; decide)
      simp [hw, h1, h2]
    · by_cases hp : src.PType = PeerTypePython
      · have h1 : pmBroadcastToType st.peers PeerTypeWeb = (0, []) :=
          pmBroadcastToType_all_ne (fun p hmem => by
            rw [hpm p hmem, hp]; decide)
        have h2 : wsBroadcastLoop PeerTypeWeb data st.dataClients =
            (st.dataClients, 0, []) :=
          wsBroadcastLoop_all_ne (fun c hc => by
            rw [hws c hc, hp]; decide)
        simp [hw, hp, hpw, h1, h2]
      · simp [hw, hp]

theorem handleBinaryData_snd (st : RelayState) (c : WSClient) (data : List Nat) :
    (handleBinaryData st c data).2 =
      match DecodeTwist data with
      | Except.error _ => []
      | Except.ok _ =>
        (forwardLoop c.ID c.PeerType data st.dataClients).2.2.map
            (fun x => Target.ws x.ID x.PeerType) ++
          (pmBroadcastToType st.peers
              (if c.PeerType = PeerTypeWeb then PeerTypePython else PeerTypeWeb)).2.map
            (fun p => Target.webrtc p.ID p.PType) := by
  unfold handleBinaryData forwardData
  cases DecodeTwist data with
  | error e => rfl
  | ok tw => rfl

theorem handleBinaryData_delivered_role {st : RelayState} {c : WSClient}
    {data : List Nat} {t : Target} (ht : t ∈ (handleBinaryData st c data).2) :
    t.role ≠ c.PeerType := by
  rw [handleBinaryData_snd] at ht
  rcases hdec : DecodeTwist data with e | tw <;> rw [hdec] at ht
  · simp at ht
  · rcases List.mem_append.1 ht with h | h
    · rcases List.mem_map.1 h with ⟨x, hx, rfl⟩
      have hty := (forwardLoop_delivered_mem hx).2.1
      show x.PeerType ≠ c.PeerType
      rw [hty]
      exact targetTypeOf_ne c.PeerType
    · rcases List.mem_map.1 h with ⟨p, hp, rfl⟩
      have hty := (pmBroadcastToType_delivered_mem hp).1
      show p.PType ≠ c.PeerType
      by_cases hcw : c.PeerType = PeerTypeWeb
      · rw [if_pos hcw] at hty
        rw [hty, hcw]
        decide
      · rw [if_neg hcw] at hty
        rw [hty]
        exact fun hc => hcw hc.symm

theorem handleDataMessage_snd (st : RelayState) (c : WSClient)
    (msg : DataMessage) (now : Nat) :
    (handleDataMessage st c msg now).2 =
      if msg.MsgType = "twist" then
        (forwardLoop c.ID c.PeerType msg.Data st.dataClients).2.2.map
          (fun x => Target.ws x.ID x.PeerType)
      else [] := by
  unfold handleDataMessage forwardData
  by_cases h : msg.MsgType = "twist"
  · simp [h]
  · by_cases h2 : msg.MsgType = "ping" <;> simp [h, h2]

/-- C2: every peer that receives a routed frame has a role different
from the origin's, on both router entry paths; a web origin's frames go
only to python-role targets and a python origin's only to web-role
targets; and when every registered peer shares the origin's role, the
fan-out is empty and `MessagesForwarded` is not incremented for that
send. -/
theorem cross_role_routing :
    (∀ st (src : Peer) data t, t ∈ (HandleMessage st src data).2 →
        t.role ≠ src.PType) ∧
    (∀ st (src : Peer) data t, src.PType = PeerTypeWeb →
        t ∈ (HandleMessage st src data).2 → t.role = PeerTypePython) ∧
    (∀ st (src : Peer) data t, src.PType = PeerTypePython →
        t ∈ (HandleMessage st src data).2 → t.role = PeerTypeWeb) ∧
    (∀ st (c : WSClient) data t, t ∈ (handleBinaryData st c data).2 →
        t.role ≠ c.PeerType) ∧
    (∀ st (src : Peer) data,
        (∀ p ∈ st.peers, p.PType = src.PType) →
        (∀ x ∈ st.dataClients, x.PeerType = src.PType) →
        (HandleMessage st src data).2 = [] ∧
        (HandleMessage st src data).1.stats.MessagesForwarded =
          st.stats.MessagesForwarded) ∧
    (∀ cs stats sid d (sty : String), (∀ x ∈ cs, x.PeerType = sty) →
        (forwardData cs stats sid sty d).2.2 = [] ∧
        (forwardData cs stats sid sty d).2.1.MessagesForwarded =
          stats.MessagesForwarded) := by
  refine ⟨?_, ?_, ?_, ?_, ?_, ?_⟩
  · intro st src data t ht
    rcases HandleMessage_delivered_role ht with ⟨hw, hr⟩ | ⟨hp, hr⟩
    · rw [hr, hw]; decide
    · rw [hr, hp]; decide
  · intro st src data t hw ht
    rcases HandleMessage_delivered_role ht with ⟨_, hr⟩ | ⟨hp, hr⟩
    · exact hr
    · rw [hw] at hp
      exact absurd hp (by decide)
  · intro st src data t hp ht
    rcases HandleMessage_delivered_role ht with ⟨hw, hr⟩ | ⟨_, hr⟩
    · rw [hp] at hw
      exact absurd hw (by decide)
    · exact hr
  · intro st c data t ht
    exact handleBinaryData_delivered_role ht
  · intro st src data hpm hws
    exact HandleMessage_same_role_isolated st src data hpm hws
  · intro cs stats sid d sty hall
    have hfil : cs.filter (fun c => decide ((c.ID ≠ sid ∧
        c.PeerType = targetTypeOf sty) ∧
        c.Send.length < sendChanCapacity)) = [] := by
      refine List.filter_eq_nil_iff.2 (fun x hx => ?_)
      have hne : x.PeerType ≠ targetTypeOf sty := by
        rw [hall x hx]
        exact fun hc => targetTypeOf_ne sty hc.symm
      simp [hne]
    have hnil : (forwardLoop sid sty d cs).2.2 = [] := by
      rw [forwardLoop_eq]
      exact hfil
    have hzero : (forwardLoop sid sty d cs).2.1 = 0 := by
      rw [forwardLoop_eq]
      simp only [hfil]
      rfl
    constructor
    · unfold forwardData
      simp [hnil]
    · unfold forwardData
      simp [hzero]

/-- Witness for C2: two web data clients and a web origin — empty
fan-out and an unchanged forwarded counter. -/
theorem cross_role_routing_witness :
    (HandleMessage
        { peers := [],
          dataClients := [{ ID := "a", PeerType := "web", Send := [] },
                          { ID := "b", PeerType := "web", Send := [] }],
          stats := { MessagesReceived := 0, MessagesForwarded := 0, ParseErrors := 0 } }
        { ID := "p", PType := "web", dataChannelOpen := true }
        (List.replicate 56 0)).2 = [] ∧
    (HandleMessage
        { peers := [],
          dataClients := [{ ID := "a", PeerType := "web", Send := [] },
                          { ID := "b", PeerType := "web", Send := [] }],
          stats := { MessagesReceived := 0, MessagesForwarded := 0, ParseErrors := 0 } }
        { ID := "p", PType := "web", dataChannelOpen := true }
        (List.replicate 56 0)).1.stats.MessagesForwarded = 0 :=
  cross_role_routing.2.2.2.2.1 _ _ _ (by simp) (by decide)

/-- C3: the origin peer never appears in the fan-out of its own frame:
`HandleMessage` (WebRTC origin), `handleBinaryData` (socket binary
origin) and `handleDataMessage` (socket JSON origin) never deliver back
to the peer the frame came from, on either transport. -/
theorem no_self_delivery :
    (∀ st (src : Peer) data t, t ∈ (HandleMessage st src data).2 →
        t ≠ Target.webrtc src.ID src.PType) ∧
    (∀ st (c : WSClient) data t, t ∈ (handleBinaryData st c data).2 →
        t ≠ Target.ws c.ID c.PeerType) ∧
    (∀ st (c : WSClient) msg now t, t ∈ (handleDataMessage st c msg now).2 →
        t ≠ Target.ws c.ID c.PeerType) := by
  refine ⟨?_, ?_, ?_⟩
  · intro st src data t ht heq
    have hrole : t.role = src.PType := by rw [heq]; rfl
    rcases HandleMessage_delivered_role ht with ⟨hw, hr⟩ | ⟨hp, hr⟩
    · rw [hrole, hw] at hr
      exact absurd hr (by decide)
    · rw [hrole, hp] at hr
      exact absurd hr (by decide)
  · intro st c data t ht heq
    rw [handleBinaryData_snd] at ht
    rcases hdec : DecodeTwist data with e | tw <;> rw [hdec] at ht
    · simp at ht
    · rcases List.mem_append.1 ht with h | h
      · rcases List.mem_map.1 h with ⟨x, hx, rfl⟩
        have hid := (forwardLoop_delivered_mem hx).1
        exact hid (Target.ws.inj heq).1
      · rcases List.mem_map.1 h with ⟨p, hp, rfl⟩
        simp at heq
  · intro st c msg now t ht heq
    rw [handleDataMessage_snd] at ht
    by_cases h : msg.MsgType = "twist"
    · rw [if_pos h] at ht
      rcases List.mem_map.1 ht with ⟨x, hx, rfl⟩
      have hid := (forwardLoop_delivered_mem hx).1
      exact hid (Target.ws.inj heq).1
    · rw [if_neg h] at ht
      simp at ht

/-- Witness for C3: a concrete delivery to a python data client from a
web WebRTC origin is not a delivery to the origin. -/
theorem no_self_delivery_witness :
    Target.ws "b" "python" ≠ Target.webrtc "p" "web" :=
  no_self_delivery.1
    { peers := [],
      dataClients := [{ ID := "b", PeerType := "python", Send := [] }],
      stats := { MessagesReceived := 0, MessagesForwarded := 0, ParseErrors := 0 } }
    { ID := "p", PType := "web", dataChannelOpen := true }
    (List.replicate 56 0) (Target.ws "b" "python") (by decide)

/-- C1 counterexample: with one python data client connected (an
opposite-role target that a well-formed frame does reach), a 3-byte
frame from a web origin fails decoding, the decode-error counter is
incremented, yet the fan-out is empty — the frame is NOT forwarded,
contradicting the claim that a decode failure never suppresses
fan-out. -/
theorem decode_failure_forwarding_counterexample :
    (HandleMessage
        { peers := [],
          dataClients := [{ ID := "b", PeerType := "python", Send := [] }],
          stats := { MessagesReceived := 0, MessagesForwarded := 0, ParseErrors := 0 } }
        { ID := "p", PType := "web", dataChannelOpen := true }
        [0, 0, 0]).2 = [] ∧
    (HandleMessage
        { peers := [],
          dataClients := [{ ID := "b", PeerType := "python", Send := [] }],
          stats := { MessagesReceived := 0, MessagesForwarded := 0, ParseErrors := 0 } }
        { ID := "p", PType := "web", dataChannelOpen := true }
        [0, 0, 0]).1.stats.ParseErrors = 1 ∧
    (HandleMessage
        { peers := [],
          dataClients := [{ ID := "b", PeerType := "python", Send := [] }],
          stats := { MessagesReceived := 0, MessagesForwarded := 0, ParseErrors := 0 } }
        { ID := "p", PType := "web", dataChannelOpen := true }
        (List.replicate 56 0)).2 = [Target.ws "b" "python"] := by
  refine ⟨rfl, rfl, by decide⟩

/-- C1 amended: on a frame that fails decoding, `HandleMessage`
increments the decode-error counter and drops the frame — empty
fan-out, peer registries and client buffers untouched — and the socket
binary inbound path (`handleBinaryData`) likewise drops it, counting it
as received but incrementing no decode-error counter. -/
theorem decode_failure_drops (st : RelayState) (src : Peer) (c : WSClient)
    (data : List Nat) (e : TwistError)
    (h : DecodeTwist data = Except.error e) :
    HandleMessage st src data =
      ({ st with stats := { st.stats with
          MessagesReceived := st.stats.MessagesReceived + 1,
          ParseErrors := st.stats.ParseErrors + 1 } }, []) ∧
    handleBinaryData st c data =
      ({ st with stats := { st.stats with
          MessagesReceived := st.stats.MessagesReceived + 1 } }, []) := by
  constructor
  · unfold HandleMessage
    rw [h]
  · unfold handleBinaryData
    rw [h]

/-- Witness for C1's amended statement at a concrete state and a 3-byte
frame. -/
theorem decode_failure_drops_witness :
    HandleMessage
        { peers := [],
          dataClients := [{ ID := "b", PeerType := "python", Send := [] }],
          stats := { MessagesReceived := 4, MessagesForwarded := 2, ParseErrors := 0 } }
        { ID := "p", PType := "web", dataChannelOpen := true }
        [1, 2, 3] =
      ({ peers := [],
         dataClients := [{ ID := "b", PeerType := "python", Send := [] }],
         stats := { MessagesReceived := 5, MessagesForwarded := 2, ParseErrors := 1 } }, []) ∧
    handleBinaryData
        { peers := [],
          dataClients := [{ ID := "b", PeerType := "python", Send := [] }],
          stats := { MessagesReceived := 4, MessagesForwarded := 2, ParseErrors := 0 } }
        { ID := "a", PeerType := "web", Send := [] }
        [1, 2, 3] =
      ({ peers := [],
         dataClients := [{ ID := "b", PeerType := "python", Send := [] }],
         stats := { MessagesReceived := 5, MessagesForwarded := 2, ParseErrors := 0 } }, []) :=
  decode_failure_drops _ _ _ [1, 2, 3] TwistError.ErrInvalidMessageSize rfl

/-- C7: the outbound channel of a socket data client is the bounded
256-slot queue of `make(chan []byte, 256)`: the non-blocking enqueue of
`forwardData` succeeds and appends exactly when the buffer has room,
leaves a full buffer unchanged (the frame is dropped for that target
with a "send buffer full" log), never exceeds the capacity, and — per
the positional map characterization — each client's outcome depends
only on that client's own buffer, so one full buffer cannot affect
delivery to any other target. -/
theorem send_buffer_bounded :
    sendChanCapacity = 256 ∧
    (∀ (c : WSClient) m, c.Send.length < sendChanCapacity →
        trySend c m = ({ c with Send := c.Send ++ [m] }, true)) ∧
    (∀ (c : WSClient) m, ¬ c.Send.length < sendChanCapacity →
        trySend c m = (c, false)) ∧
    (∀ (c : WSClient) m, c.Send.length ≤ sendChanCapacity →
        ((trySend c m).1).Send.length ≤ sendChanCapacity) ∧
    (∀ sid sty d cs, (forwardLoop sid sty d cs).1 = cs.map (fun c =>
        if c.ID ≠ sid ∧ c.PeerType = targetTypeOf sty then
          (trySend c (OutMsg.dataFrame d)).1 else c)) ∧
    (∀ sid sty d cs (c : WSClient), sendChanCapacity ≤ c.Send.length →
        c ∉ (forwardLoop sid sty d cs).2.2) := by
  refine ⟨rfl, ?_, ?_, ?_, ?_, ?_⟩
  · intro c m h
    simp [trySend, h]
  · intro c m h
    simp [trySend, h]
  · intro c m h
    by_cases hr : c.Send.length < sendChanCapacity
    · simp [trySend, hr]
      omega
    · simp [trySend, hr]
      exact h
  · intro sid sty d cs
    rw [forwardLoop_eq]
  · intro sid sty d cs c hfull hmem
    have := (forwardLoop_delivered_mem hmem).2.2
    omega

/-- Witness for C7 at a one-slot-from-full and an exactly-full buffer. -/
theorem send_buffer_bounded_witness :
    trySend { ID := "b", PeerType := "python",
              Send := List.replicate 256 (OutMsg.dataFrame []) }
        (OutMsg.dataFrame [7]) =
      ({ ID := "b", PeerType := "python",
         Send := List.replicate 256 (OutMsg.dataFrame []) }, false) ∧
    trySend { ID := "c", PeerType := "python", Send := [] }
        (OutMsg.dataFrame [7]) =
      ({ ID := "c", PeerType := "python", Send := [OutMsg.dataFrame [7]] }, true) := by
  constructor
  · exact send_buffer_bounded.2.2.1 _ _ (by rw [List.length_replicate]; decide)
  · exact send_buffer_bounded.2.1 _ _ (by simp [sendChanCapacity])

theorem forwardData_received (cs : List WSClient) (stats : RouterStats)
    (sid sty : String) (d : List Nat) :
    (forwardData cs stats sid sty d).2.1.MessagesReceived =
      stats.MessagesReceived := by
  unfold forwardData
  by_cases h : 0 < (forwardLoop sid sty d cs).2.1 <;> simp [h]

/-- C10: a JSON `"twist"` envelope on the data socket is handled purely
by `forwardData` — its payload goes only to opposite-type socket data
clients other than the sender; the WebRTC peer registry is untouched (no
cross-transport bridge), the payload is never decoded (the same fan-out
happens for every payload, decodable or not), and the received counter
is not incremented. -/
theorem twist_envelope_socket_only (st : RelayState) (c : WSClient)
    (msg : DataMessage) (now : Nat) (h : msg.MsgType = "twist") :
    handleDataMessage st c msg now =
      ({ peers := st.peers,
         dataClients := (forwardData st.dataClients st.stats c.ID c.PeerType msg.Data).1,
         stats := (forwardData st.dataClients st.stats c.ID c.PeerType msg.Data).2.1 },
       (forwardData st.dataClients st.stats c.ID c.PeerType msg.Data).2.2.map
         (fun x => Target.ws x.ID x.PeerType)) ∧
    (handleDataMessage st c msg now).1.peers = st.peers ∧
    (handleDataMessage st c msg now).1.stats.MessagesReceived =
      st.stats.MessagesReceived ∧
    (∀ t ∈ (handleDataMessage st c msg now).2,
      ∃ x : WSClient, t = Target.ws x.ID x.PeerType ∧
        x.PeerType = targetTypeOf c.PeerType ∧ x.ID ≠ c.ID) := by
  have heq : handleDataMessage st c msg now =
      ({ peers := st.peers,
         dataClients := (forwardData st.dataClients st.stats c.ID c.PeerType msg.Data).1,
         stats := (forwardData st.dataClients st.stats c.ID c.PeerType msg.Data).2.1 },
       (forwardData st.dataClients st.stats c.ID c.PeerType msg.Data).2.2.map
         (fun x => Target.ws x.ID x.PeerType)) := by
    unfold handleDataMessage
    rw [if_pos h]
  refine ⟨heq, by rw [heq], ?_, ?_⟩
  · rw [heq]
    exact forwardData_received _ _ _ _ _
  · intro t ht
    rw [heq] at ht
    rcases List.mem_map.1 ht with ⟨x, hx, rfl⟩
    have hm := forwardLoop_delivered_mem (c := x) (by exact hx)
    exact ⟨x, rfl, hm.2.1, hm.1⟩

/-- Witness for C10: an undecodable 1-byte payload inside a `"twist"`
envelope from a web client is still fanned out — to the python data
client only — with the received counter untouched. -/
theorem twist_envelope_socket_only_witness :
    handleDataMessage
        { peers := [{ ID := "r", PType := "python", dataChannelOpen := true }],
          dataClients := [{ ID := "a", PeerType := "web", Send := [] },
                          { ID := "b", PeerType := "python", Send := [] }],
          stats := { MessagesReceived := 3, MessagesForwarded := 0, ParseErrors := 0 } }
        { ID := "a", PeerType := "web", Send := [] }
        { MsgType := "twist", PeerID := "a", PeerType := "web",
          Data := [9], Timestamp := 0 } 777 =
      ({ peers := [{ ID := "r", PType := "python", dataChannelOpen := true }],
         dataClients :=
           (forwardData
              [{ ID := "a", PeerType := "web", Send := [] },
               { ID := "b", PeerType := "python", Send := [] }]
              { MessagesReceived := 3, MessagesForwarded := 0, ParseErrors := 0 }
              "a" "web" [9]).1,
         stats :=
           (forwardData
              [{ ID := "a", PeerType := "web", Send := [] },
               { ID := "b", PeerType := "python", Send := [] }]
              { MessagesReceived := 3, MessagesForwarded := 0, ParseErrors := 0 }
              "a" "web" [9]).2.1 },
       (forwardData
          [{ ID := "a", PeerType := "web", Send := [] },
           { ID := "b", PeerType := "python", Send := [] }]
          { MessagesReceived := 3, MessagesForwarded := 0, ParseErrors := 0 }
          "a" "web" [9]).2.2.map (fun x => Target.ws x.ID x.PeerType)) ∧
    (handleDataMessage
        { peers := [{ ID := "r", PType := "python", dataChannelOpen := true }],
          dataClients := [{ ID := "a", PeerType := "web", Send := [] },
                          { ID := "b", PeerType := "python", Send := [] }],
          stats := { MessagesReceived := 3, MessagesForwarded := 0, ParseErrors := 0 } }
        { ID := "a", PeerType := "web", Send := [] }
        { MsgType := "twist", PeerID := "a", PeerType := "web",
          Data := [9], Timestamp := 0 } 777).1.peers =
      [{ ID := "r", PType := "python", dataChannelOpen := true }] ∧
    (handleDataMessage
        { peers := [{ ID := "r", PType := "python", dataChannelOpen := true }],
          dataClients := [{ ID := "a", PeerType := "web", Send := [] },
                          { ID := "b", PeerType := "python", Send := [] }],
          stats := { MessagesReceived := 3, MessagesForwarded := 0, ParseErrors := 0 } }
        { ID := "a", PeerType := "web", Send := [] }
        { MsgType := "twist", PeerID := "a", PeerType := "web",
          Data := [9], Timestamp := 0 } 777).1.stats.MessagesReceived = 3 ∧
    (∀ t ∈ (handleDataMessage
        { peers := [{ ID := "r", PType := "python", dataChannelOpen := true }],
          dataClients := [{ ID := "a", PeerType := "web", Send := [] },
                          { ID := "b", PeerType := "python", Send := [] }],
          stats := { MessagesReceived := 3, MessagesForwarded := 0, ParseErrors := 0 } }
        { ID := "a", PeerType := "web", Send := [] }
        { MsgType := "twist", PeerID := "a", PeerType := "web",
          Data := [9], Timestamp := 0 } 777).2,
      ∃ x : WSClient, t = Target.ws x.ID x.PeerType ∧
        x.PeerType = targetTypeOf "web" ∧ x.ID ≠ "a") :=
  twist_envelope_socket_only _ _ _ 777 rfl

/-! ## Keepalive supervisor (socket transport) -/

/-- `pingInterval` from `websocket.go`: the probe ticker period of
`writePumpData` / `writePumpSignaling`, 30 s, in milliseconds. -/
def pingInterval : Nat := 30000

/-- `pongTimeout` from `websocket.go`: how long to wait for a pong,
10 s, in milliseconds. -/
def pongTimeout : Nat := 10000

/-- `writeTimeout` from `websocket.go`: deadline for any socket write,
10 s, in milliseconds. -/
def writeTimeout : Nat := 10000

/-- The read deadline armed by `readPumpData` at connect and re-armed by
the pong handler: `time.Now().Add(pongTimeout + pingInterval)`, where
`lastSeen` is the instant of arming (the last pong, or the connect). -/
def readDeadline (lastSeen : Nat) : Nat := lastSeen + (pongTimeout + pingInterval)

/-- `WSManager.removeDataClient`: close the client's channel and delete
its record from the data registry. -/
def removeDataClient (clients : List WSClient) (id : String) : List WSClient :=
  clients.filter (fun c => !(c.ID == id))

/-- Registry lookup `dataClients[id]`. -/
def lookupDataClient (clients : List WSClient) (id : String) : Option WSClient :=
  clients.find? (fun c => c.ID == id)

/-- One blocked read of `readPumpData` against the armed deadline: when
`now` passes the read deadline, `ReadMessage` fails (the read-deadline
contract of the socket library, which is outside this repository), the
loop breaks, and the deferred cleanup removes the client from the
registry and closes the socket; otherwise the registry is untouched. -/
def readPumpExpire (clients : List WSClient) (c : WSClient) (lastSeen now : Nat) :
    List WSClient :=
  if readDeadline lastSeen < now then removeDataClient clients c.ID else clients

/-- C8: the probe ticker fires every 30 s, the pong deadline is 10 s,
the read deadline equals last-seen + 30 s + 10 s, and a socket peer
whose deadline passes without a pong or read is removed from the data
registry, after which lookup by its id fails. -/
theorem keepalive_eviction (clients : List WSClient) (c : WSClient)
    (lastSeen now : Nat) (h : readDeadline lastSeen < now) :
    pingInterval = 30000 ∧ pongTimeout = 10000 ∧
    readDeadline lastSeen = lastSeen + 30000 + 10000 ∧
    lookupDataClient (readPumpExpire clients c lastSeen now) c.ID = none := by
  refine ⟨rfl, rfl, by unfold readDeadline pingInterval pongTimeout; omega, ?_⟩
  unfold readPumpExpire
  rw [if_pos h]
  unfold lookupDataClient removeDataClient
  rw [List.find?_eq_none]
  intro x hx
  have hmem := List.mem_filter.1 hx
  simp only [Bool.not_eq_true'] at hmem
  simp [hmem.2]

/-- Witness for C8: a peer last seen at t=0 and probed in vain until
t=40001 ms is gone from the registry. -/
theorem keepalive_eviction_witness :
    pingInterval = 30000 ∧ pongTimeout = 10000 ∧
    readDeadline 0 = 0 + 30000 + 10000 ∧
    lookupDataClient
      (readPumpExpire [{ ID := "b", PeerType := "python", Send := [] }]
        { ID := "b", PeerType := "python", Send := [] } 0 40001) "b" = none :=
  keepalive_eviction _ _ 0 40001 (by decide)

/-! ## HTTP signaling: the /offer admission path -/

/-- A signaling response body: `ErrorResponse{Error, Details}` or
`AnswerResponse{SDP, Type, PeerID}`. -/
inductive HttpBody where
  | errorBody (error details : String)
  | answerBody (sdp typ peerID : String)
deriving DecidableEq, Repr

/-- An HTTP response: status code and JSON body. -/
structure HttpResponse where
  status : Nat
  body : HttpBody
deriving DecidableEq, Repr

/-- `OfferRequest` (the Go field `Type` is spelled `ReqType`). -/
structure OfferRequest where
  SDP : String
  ReqType : String
  PeerType : String
deriving DecidableEq, Repr

/-- Outcomes of the external pion-WebRTC calls made during one /offer
admission — `CreatePeer`'s `NewPeerConnection`, `SetRemoteDescription`,
`CreateAnswer`, `SetLocalDescription` — each `none` on success or
`some errText` on failure, plus the gathered local SDP returned on
success. -/
structure OfferEnv where
  createPeerErr : Option String
  setRemoteErr : Option String
  createAnswerErr : Option String
  setLocalErr : Option String
  localSDP : String
deriving DecidableEq, Repr

/-- `PeerManager.RemovePeer` (registry part): delete the record with
the given id and close its connection. -/
def RemovePeer (peers : List Peer) (id : String) : List Peer :=
  peers.filter (fun p => !(p.ID == id))

/-- `SignalingHandler.handleOffer`: method check, JSON decode
(`decodeErr` is its outcome), peer-type validation defaulting to web,
`CreatePeer` (which registers the fresh record under `freshId`), then
remote description, answer creation and local description — each
failure calling `RemovePeer` on the fresh peer before the error
response; on success the registered peer stays and the answer is
returned. -/
def handleOffer (env : OfferEnv) (peers : List Peer) (method : String)
    (decodeErr : Option String) (req : OfferRequest) (freshId : String) :
    List Peer × HttpResponse :=
  if method ≠ "POST" then
    (peers, { status := 405, body := HttpBody.errorBody "Method not allowed" "Use POST" })
  else match decodeErr with
  | some e => (peers, { status := 400, body := HttpBody.errorBody "Invalid JSON" e })
  | none =>
    let peerType :=
      if req.PeerType = PeerTypeWeb ∨ req.PeerType = PeerTypePython then req.PeerType
      else PeerTypeWeb
    match env.createPeerErr with
    | some e =>
        (peers, { status := 500, body := HttpBody.errorBody "Failed to create peer" e })
    | none =>
      let peers1 := peers ++ [{ ID := freshId, PType := peerType, dataChannelOpen := false }]
      match env.setRemoteErr with
      | some e =>
          (RemovePeer peers1 freshId,
           { status := 400, body := HttpBody.errorBody "Invalid SDP offer" e })
      | none =>
        match env.createAnswerErr with
        | some e =>
            (RemovePeer peers1 freshId,
             { status := 500, body := HttpBody.errorBody "Failed to create answer" e })
        | none =>
          match env.setLocalErr with
          | some e =>
              (RemovePeer peers1 freshId,
               { status := 500,
                 body := HttpBody.errorBody "Failed to set local description" e })
          | none =>
              (peers1,
               { status := 200, body := HttpBody.answerBody env.localSDP "answer" freshId })

theorem RemovePeer_fresh (peers : List Peer) (q : Peer)
    (hfresh : ∀ p ∈ peers, p.ID ≠ q.ID) :
    RemovePeer (peers ++ [q]) q.ID = peers := by
  unfold RemovePeer
  rw [List.filter_append]
  have h1 : peers.filter (fun p => !(p.ID == q.ID)) = peers :=
    List.filter_eq_self.2 (fun p hp => by simp [hfresh p hp])
  have h2 : [q].filter (fun p => !(p.ID == q.ID)) = [] := by simp
  rw [h1, h2, List.append_nil]

/-- C9: under a fresh peer id, every failing admission step of /offer
removes the just-created peer before responding — the registry ends
exactly as it began — and the caller receives 400 with an
{error, details} body for a bad remote description, and 500 for
answer-creation or local-description failure. -/
theorem offer_failure_cleanup (env : OfferEnv) (peers : List Peer)
    (req : OfferRequest) (freshId : String)
    (hfresh : ∀ p ∈ peers, p.ID ≠ freshId)
    (hcreate : env.createPeerErr = none) :
    (∀ e, env.setRemoteErr = some e →
      handleOffer env peers "POST" none req freshId =
        (peers, { status := 400, body := HttpBody.errorBody "Invalid SDP offer" e })) ∧
    (∀ e, env.setRemoteErr = none → env.createAnswerErr = some e →
      handleOffer env peers "POST" none req freshId =
        (peers, { status := 500, body := HttpBody.errorBody "Failed to create answer" e })) ∧
    (∀ e, env.setRemoteErr = none → env.createAnswerErr = none →
        env.setLocalErr = some e →
      handleOffer env peers "POST" none req freshId =
        (peers, { status := 500,
                  body := HttpBody.errorBody "Failed to set local description" e })) := by
  have hpost : ¬ ("POST" ≠ "POST") := fun hc => hc rfl
  have hrm : ∀ ty : String,
      RemovePeer (peers ++ [{ ID := freshId, PType := ty, dataChannelOpen := false }])
        freshId = peers :=
    fun ty => RemovePeer_fresh peers _ (fun p hp => hfresh p hp)
  refine ⟨?_, ?_, ?_⟩
  · intro e h1
    unfold handleOffer
    rw [if_neg hpost]
    simp only [hcreate, h1, hrm]
  · intro e h1 h2
    unfold handleOffer
    rw [if_neg hpost]
    simp only [hcreate, h1, h2, hrm]
  · intro e h1 h2 h3
    unfold handleOffer
    rw [if_neg hpost]
    simp only [hcreate, h1, h2, h3, hrm]

/-- Witness for C9: a concrete registry with one existing peer and a
failing remote description — registry unchanged, 400 {error, details}
response. -/
theorem offer_failure_cleanup_witness :
    handleOffer
        { createPeerErr := none, setRemoteErr := some "bad sdp",
          createAnswerErr := none, setLocalErr := none, localSDP := "x" }
        [{ ID := "x", PType := "web", dataChannelOpen := true }]
        "POST" none { SDP := "o", ReqType := "offer", PeerType := "python" } "y" =
      ([{ ID := "x", PType := "web", dataChannelOpen := true }],
       { status := 400, body := HttpBody.errorBody "Invalid SDP offer" "bad sdp" }) :=
  (offer_failure_cleanup _ _ _ "y" (by decide) rfl).1 "bad sdp" rfl

end Relay
